import Mathlib

/-!
Verification of the sparrow-realtime delivery core against its
natural-language specification.

The development shallowly embeds the Rust sources:

* `src/utils/id_generator.rs` — identifier generation, parsing, validation.
  Rust `&str` values are modelled as `List Char`; Rust `str::len` is the
  UTF-8 byte length (`utf8Len`), and Rust byte slicing `&s[a..b]`, which
  panics when `a` or `b` is not a character boundary, is modelled by
  `byteTake`/`byteDrop` returning `none` on a boundary violation.  A Rust
  function that may panic returns `RustResult α`, where `RustResult.panic`
  marks a panic and `RustResult.ret` a normal return.
* `src/services/job_service.rs` — the dispatch engine.  `f64` arithmetic is
  modelled abstractly by a structure of operations `FloatOps F` over an
  arbitrary carrier `F`; timestamps (`DateTime<Utc>`) are modelled as `Int`
  (seconds); the random inputs of a call (generated ID suffixes, the current
  date) are passed as explicit arguments.
* The repository contract (`CacheService`) is commented out in
  `src/services/cache_service.rs`, so its behaviour is modelled from the
  specification (§6): a per-key store of job records with set-based
  secondary indices, reads observing prior writes on the same key.
-/

namespace Sparrow

/-- Outcome of a Rust computation that may panic: `panic` models a Rust
panic (e.g. out-of-boundary byte slicing), `ret` a normal return. -/
inductive RustResult (α : Type) where
  | panic : RustResult α
  | ret : α → RustResult α
deriving Repr, DecidableEq

/-! ## Identifier generator (src/utils/id_generator.rs) -/

/-- The closed set of entity kinds (`enum IdType`). -/
inductive IdType where
  | User
  | Driver
  | Job
  | Vehicle
  | Payment
  | Address
  | Notification
  | SupportTicket
  | Verification
  | Reward
deriving Repr, DecidableEq

/-- `IdType::to_prefix`: the three-letter tag of each entity kind. -/
def IdType.tag : IdType → List Char
  | .User => ['u', 's', 'r']
  | .Driver => ['d', 'r', 'v']
  | .Job => ['j', 'o', 'b']
  | .Vehicle => ['v', 'e', 'h']
  | .Payment => ['p', 'a', 'y']
  | .Address => ['a', 'd', 'd']
  | .Notification => ['n', 'o', 't']
  | .SupportTicket => ['t', 'i', 'c']
  | .Verification => ['v', 'e', 'r']
  | .Reward => ['r', 'e', 'w']

/-- Rust `str::len`: the UTF-8 byte length of a character sequence. -/
def utf8Len (cs : List Char) : Nat :=
  (cs.map Char.utf8Size).sum

/-- Rust `id.split('-')`: splits at every `'-'`, keeping empty segments;
the result is always non-empty. -/
def splitDash : List Char → List (List Char)
  | [] => [[]]
  | c :: rest =>
    match splitDash rest with
    | [] => [[]]
    | seg :: segs =>
      if c = '-' then [] :: seg :: segs else (c :: seg) :: segs

/-- Rust byte slicing, first half: the characters spanning bytes `[0, n)` of
`cs`, or `none` when byte offset `n` falls inside a character — the case in
which Rust's `&s[..n]` panics. -/
def byteTake : List Char → Nat → Option (List Char)
  | _, 0 => some []
  | [], _ + 1 => none
  | c :: rest, n + 1 =>
    if c.utf8Size ≤ n + 1 then
      (byteTake rest (n + 1 - c.utf8Size)).map (c :: ·)
    else
      none

/-- Rust byte slicing, second half: the characters after byte offset `n`,
or `none` when `n` is not a character boundary. -/
def byteDrop : List Char → Nat → Option (List Char)
  | cs, 0 => some cs
  | [], _ + 1 => none
  | c :: rest, n + 1 =>
    if c.utf8Size ≤ n + 1 then byteDrop rest (n + 1 - c.utf8Size) else none

/-- Rust `&s[a..b]` (with `a ≤ b`): `none` models the boundary panic. -/
def byteSlice (cs : List Char) (a b : Nat) : Option (List Char) :=
  (byteDrop cs a).bind (fun rest => byteTake rest (b - a))

/-- Decimal digit value of an ASCII digit character. -/
def digVal (c : Char) : Nat :=
  c.toNat - '0'.toNat

/-- Rust `str::parse::<uN>` on a sign-free input: at least one character,
every character an ASCII digit (overflow cannot occur at the widths used by
`parse_id`, so it is not modelled). -/
def parseDigits (cs : List Char) : Option Nat :=
  if cs ≠ [] ∧ cs.all Char.isDigit then
    some (cs.foldl (fun a c => 10 * a + digVal c) 0)
  else
    none

/-- Rust `str::parse::<u32>`: an optional leading `'+'` sign followed by
ASCII digits. -/
def parseRustU32 (cs : List Char) : Option Nat :=
  match cs with
  | c :: rest => if c = '+' then parseDigits rest else parseDigits cs
  | [] => none

/-- The prefix match inside `parse_id` (`match prefix { "usr" => … }`). -/
def tagToType (p : List Char) : Option IdType :=
  if p = ['u', 's', 'r'] then some .User
  else if p = ['d', 'r', 'v'] then some .Driver
  else if p = ['j', 'o', 'b'] then some .Job
  else if p = ['v', 'e', 'h'] then some .Vehicle
  else if p = ['p', 'a', 'y'] then some .Payment
  else if p = ['a', 'd', 'd'] then some .Address
  else if p = ['n', 'o', 't'] then some .Notification
  else if p = ['t', 'i', 'c'] then some .SupportTicket
  else if p = ['v', 'e', 'r'] then some .Verification
  else if p = ['r', 'e', 'w'] then some .Reward
  else none

/-- `struct ParsedId` of `id_generator.rs`.  `year` is the already expanded
four-digit year (`format!("20{}", …)` parsed as `i32`). -/
structure ParsedId where
  id_type : IdType
  year : Nat
  month : Nat
  day : Nat
  random_suffix : List Char
deriving Repr, DecidableEq

/-- `IdGenerator::parse_id`.  Mirrors the source order: split on `'-'`,
arity check, byte-length checks (6 and 5), prefix match, then the three
2-byte date sub-slices parsed in sequence (each slice may panic on a
non-boundary byte index; each parse failure returns `None` via `?`), and
finally the month/day range check. -/
def parse_id (id : List Char) : RustResult (Option ParsedId) :=
  match splitDash id with
  | [p, datePart, randomSuffix] =>
    if utf8Len datePart ≠ 6 ∨ utf8Len randomSuffix ≠ 5 then .ret none
    else
      match tagToType p with
      | none => .ret none
      | some idt =>
        match byteTake datePart 2 with
        | none => .panic
        | some y2 =>
          match parseDigits ('2' :: '0' :: y2) with
          | none => .ret none
          | some year =>
            match byteSlice datePart 2 4 with
            | none => .panic
            | some m2 =>
              match parseRustU32 m2 with
              | none => .ret none
              | some month =>
                match byteSlice datePart 4 6 with
                | none => .panic
                | some d2 =>
                  match parseRustU32 d2 with
                  | none => .ret none
                  | some day =>
                    if month < 1 ∨ month > 12 ∨ day < 1 ∨ day > 31 then
                      .ret none
                    else
                      .ret (some ⟨idt, year, month, day, randomSuffix⟩)
  | _ => .ret none

/-- `IdGenerator::validate_id`. -/
def validate_id (id : List Char) (expected : Option IdType) : RustResult Bool :=
  match parse_id id with
  | .panic => .panic
  | .ret none => .ret false
  | .ret (some parsed) =>
    match expected with
    | some e => .ret (decide (parsed.id_type = e))
    | none => .ret true

/-- A UTC calendar date as carried by a `chrono::DateTime<Utc>`; any real
`DateTime` has `1 ≤ month ≤ 12` and `1 ≤ day ≤ 31`, stated as hypotheses
where needed. -/
structure UtcDate where
  year : Nat
  month : Nat
  day : Nat
deriving Repr, DecidableEq

/-- One zero-padded two-digit field of `timestamp.format("%y%m%d")`. -/
def pad2 (n : Nat) : List Char :=
  [Nat.digitChar (n / 10 % 10), Nat.digitChar (n % 10)]

/-- `timestamp.format("%y%m%d")`: two digits each of year mod 100, month,
day. -/
def fmtYYMMDD (d : UtcDate) : List Char :=
  pad2 (d.year % 100) ++ pad2 d.month ++ pad2 d.day

/-- The hexadecimal charset of `generate_hex_chars` (`b"0123456789abcdef"`). -/
def hexChars : List Char :=
  "0123456789abcdef".data

/-- The alphanumeric charset of `generate_alphanumeric_chars`
(`b"ABC…XYZabc…xyz012…9"`). -/
def alnumChars : List Char :=
  "ABCDEFGHIJKLMNOPQRSTUVWXYZabcdefghijklmnopqrstuvwxyz0123456789".data

/-- The possible outputs of `generate_random_suffix`: five characters, either
three hex characters followed by two alphanumeric ones, or three
alphanumeric characters followed by two hex ones. -/
def validSuffix (s : List Char) : Bool :=
  match s with
  | [a, b, c, d, e] =>
    (hexChars.contains a && hexChars.contains b && hexChars.contains c &&
      alnumChars.contains d && alnumChars.contains e) ||
    (alnumChars.contains a && alnumChars.contains b && alnumChars.contains c &&
      hexChars.contains d && hexChars.contains e)
  | _ => false

/-- `IdGenerator::generate_with_timestamp`: the string
`"{prefix}-{YYMMDD}-{suffix}"`, the suffix being the draw of
`generate_random_suffix` passed in explicitly. -/
def generate_with_timestamp (idt : IdType) (d : UtcDate) (suffix : List Char) :
    List Char :=
  IdType.tag idt ++ '-' :: (fmtYYMMDD d ++ '-' :: suffix)

/-- Leap-year rule used by the proleptic Gregorian calendar of `chrono`. -/
def isLeapYear (y : Nat) : Bool :=
  y % 4 = 0 && (y % 100 ≠ 0 || y % 400 = 0)

/-- Days in a month of the proleptic Gregorian calendar. -/
def daysInMonth (y m : Nat) : Nat :=
  if m = 2 then (if isLeapYear y then 29 else 28)
  else if m = 4 ∨ m = 6 ∨ m = 9 ∨ m = 11 then 30
  else 31

/-- Modelled from the spec and the `chrono` API contract:
`Utc.with_ymd_and_hms(y, m, d, 0, 0, 0).single()` returns a date exactly
when `(y, m, d)` is a real proleptic-Gregorian calendar date within
`chrono`'s representable year range (the `chrono` crate itself is external
to the repository). -/
def with_ymd_single (y m d : Nat) : Option UtcDate :=
  if 1 ≤ m ∧ m ≤ 12 ∧ 1 ≤ d ∧ d ≤ daysInMonth y m ∧ y ≤ 262142 then
    some ⟨y, m, d⟩
  else
    none

/-- `IdGenerator::parse_creation_date`: re-parses the ID, then builds
`Utc.with_ymd_and_hms(2000 + parsed.year, month, day, 0, 0, 0).single()`
— note the source adds 2000 to the already four-digit `parsed.year`. -/
def parse_creation_date (id : List Char) : RustResult (Option UtcDate) :=
  match parse_id id with
  | .panic => .panic
  | .ret none => .ret none
  | .ret (some parsed) =>
    .ret (with_ymd_single (2000 + parsed.year) parsed.month parsed.day)

/-! ## Data model (src/models/job.rs) -/

/-- `enum JobStatus`. -/
inductive JobStatus where
  | Pending
  | Searching
  | DriverAssigned
  | DriverEnRoute
  | ArrivedAtPickup
  | PackagePickedUp
  | InTransit
  | ArrivedAtDropoff
  | DeliveryCompleted
  | Cancelled
  | Failed
  | Expired
deriving Repr, DecidableEq

/-- `enum JobPriority`. -/
inductive JobPriority where
  | Standard
  | Express
  | SameDay
  | Emergency
deriving Repr, DecidableEq

/-- `enum PackageType`. -/
inductive PackageType where
  | Document
  | SmallPackage
  | MediumPackage
  | LargePackage
  | ExtraLarge
  | Food
  | Grocery
  | Pharmacy
  | Electronics
  | Fragile
deriving Repr, DecidableEq

/-- `enum PaymentStatus`. -/
inductive PaymentStatus where
  | Pending
  | Authorized
  | Paid
  | Failed
  | Refunded
  | PartiallyRefunded
deriving Repr, DecidableEq

/-- Abstract model of Rust `f64` arithmetic: the dispatch-engine claims do
not depend on numeric values, so the floating-point operations used by
`calculate_distance_km` / `calculate_pricing` are an arbitrary operation
structure over a carrier `F`.  `lit q` interprets an `f64` literal of the
source (given as the exact rational it denotes in the source text), `powi`
is `f64::powi`, `toI32` the `as i32` cast, `ofInt` the `as f64` cast. -/
structure FloatOps (F : Type) where
  add : F → F → F
  sub : F → F → F
  mul : F → F → F
  div : F → F → F
  sin : F → F
  cos : F → F
  sqrt : F → F
  atan2 : F → F → F
  toRadians : F → F
  powi : F → Nat → F
  lit : ℚ → F
  ofInt : Int → F
  toI32 : F → Int

/-- `struct Location` (`f64` coordinates plus address/contact metadata). -/
structure Location (F : Type) where
  latitude : F
  longitude : F
  address : String
  city : String
  region : String
  country : String
  postal_code : Option String
  contact_name : String
  contact_phone : String
  instructions : Option String

/-- `struct Dimensions` (`f32` fields, modelled over the same carrier). -/
structure Dimensions (F : Type) where
  length_cm : F
  width_cm : F
  height_cm : F

/-- `struct PackageDetails`. -/
structure PackageDetails (F : Type) where
  package_type : PackageType
  description : String
  weight_kg : F
  dimensions : Dimensions F
  estimated_value : Option F
  is_fragile : Bool
  requires_signature : Bool
  contains : Option String

/-- `struct Pricing`. -/
structure Pricing (F : Type) where
  base_fare : F
  distance_fare : F
  time_fare : F
  package_surcharge : F
  priority_surcharge : F
  service_fee : F
  tax : F
  total : F
  currency : String
  estimated_cost : Bool

/-- `struct Job` — the central entity.  `DateTime<Utc>` timestamps are
modelled as `Int` (seconds). -/
structure Job (F : Type) where
  id : String
  customer_id : String
  driver_id : Option String
  status : JobStatus
  priority : JobPriority
  pickup_location : Location F
  dropoff_location : Location F
  estimated_distance_km : F
  estimated_duration_min : Int
  package : PackageDetails F
  created_at : Int
  accepted_at : Option Int
  pickup_time : Option Int
  dropoff_time : Option Int
  cancelled_at : Option Int
  expires_at : Int
  pricing : Pricing F
  payment_method_id : String
  payment_status : PaymentStatus
  tracking_code : String
  notes : Option String
  rating : Option F
  feedback : Option String
  offered_to_drivers : List String
  rejected_by_drivers : List String
  updated_at : Int

/-- `struct JobRequest`. -/
structure JobRequest (F : Type) where
  customer_id : String
  pickup_location : Location F
  dropoff_location : Location F
  package : PackageDetails F
  priority : JobPriority
  payment_method_id : String
  notes : Option String
  desired_pickup_time : Option Int

/-- `struct JobEstimateRequest`. -/
structure JobEstimateRequest (F : Type) where
  pickup_location : Location F
  dropoff_location : Location F
  package : PackageDetails F
  priority : JobPriority

/-- `struct JobResponse`. -/
structure JobResponse (F : Type) where
  id : String
  customer_id : String
  driver_id : Option String
  status : JobStatus
  priority : JobPriority
  pickup_location : Location F
  dropoff_location : Location F
  estimated_distance_km : F
  estimated_duration_min : Int
  package : PackageDetails F
  created_at : Int
  pickup_time : Option Int
  dropoff_time : Option Int
  pricing : Pricing F
  payment_status : PaymentStatus
  tracking_code : String
  notes : Option String
  rating : Option F

/-- `struct JobStatusUpdate`. -/
structure JobStatusUpdate where
  job_id : String
  status : JobStatus
  driver_id : Option String
  notes : Option String

/-- `struct ValidationError` (src/errors.rs). -/
structure ValidationError where
  field : String
  message : String
deriving Repr, DecidableEq

/-- `enum SparrowError` (src/errors.rs), the crate-wide error union. -/
inductive SparrowError where
  | BadRequest (msg : String)
  | Unauthorized (msg : String)
  | Forbidden (msg : String)
  | NotFound (msg : String)
  | Conflict (msg : String)
  | TooManyRequests (msg : String)
  | InternalServer (msg : String)
  | RedisConnection (msg : String)
  | RedisQuery (msg : String)
  | RedisTimeout
  | RedisSerialization (msg : String)
  | FirebaseAuth (msg : String)
  | FirebaseDatabase (msg : String)
  | FcmDelivery (msg : String)
  | FcmInvalidToken (msg : String)
  | FcmQuotaExceeded
  | NetworkTimeout
  | NetworkConnection (msg : String)
  | HttpClient (msg : String)
  | InvalidUrl (msg : String)
  | JsonParsing (msg : String)
  | JsonSerialization (msg : String)
  | InvalidFormat (msg : String)
  | InvalidUserId (msg : String)
  | InvalidDriverId (msg : String)
  | InvalidJobId (msg : String)
  | UserNotFound (msg : String)
  | DriverNotFound (msg : String)
  | JobNotFound (msg : String)
  | JobAlreadyAssigned
  | JobAlreadyCompleted
  | DriverNotAvailable
  | InvalidJobStatus (msg : String)
  | WebSocketConnection (msg : String)
  | WebSocketMessage (msg : String)
  | ChannelClosed
  | MessageDeliveryFailed (msg : String)
  | BroadcastFailed (msg : String)
  | ValidationFailed (errors : List ValidationError)
  | MissingRequiredField (msg : String)
  | InvalidFieldValue (field value reason : String)
  | ConfigurationError (msg : String)
  | MissingEnvironmentVariable (msg : String)
  | InvalidConfiguration (msg : String)
  | TokenExpired
  | TokenInvalid
  | InsufficientPermissions
  | RateLimitExceeded
  | ResourceNotAvailable (msg : String)
  | ResourceExhausted (msg : String)
  | ServiceUnavailable (msg : String)

/-- `SparrowError::validation_error`. -/
def SparrowError.mkValidation (field message : String) : SparrowError :=
  .ValidationFailed [⟨field, message⟩]

/-- Minimal projection of `struct User` (src/models/user.rs):
`assign_driver_to_job` binds the looked-up record and reads none of its
fields, so only `id` is carried. -/
structure User where
  id : String
deriving Repr, DecidableEq

/-- Minimal projection of `struct DriverResponse`
(src/models/driver.rs): the only producer in scope
(`find_nearby_drivers`) returns the empty list and the only consumer
(`find_available_drivers`) reads only `id`. -/
structure DriverResponse where
  id : String
deriving Repr, DecidableEq

/-! ## Repository contract (spec §6; `CacheService` in
src/services/cache_service.rs is entirely commented out) -/

/-- Modelled from the spec: the Job Repository Contract of §6 — a per-key
store of job records plus set-based per-customer and per-driver job-ID
indices — since the `CacheService` implementation in
`src/services/cache_service.rs` is commented out and only its call sites
exist in compiled code.  Job records are keyed by job ID (spec:
`get_job(id) -> Option<Job>`, `put_job(job)` full-record overwrite, reads
observe prior writes per key); user records are keyed by the cache-key
string the engine passes (`CacheKeys::driver_by_id`, i.e.
`"driver:id:{driver_id}"`). -/
structure Store (F : Type) where
  jobs : String → Option (Job F)
  users : String → Option User
  customerJobs : String → List String
  driverJobs : String → List String

/-- One repository access performed by an engine operation, recorded in
order; used to state that an operation did or did not touch the
repository. -/
inductive RepoOp where
  | readJob (key : String)
  | writeJob (id : String)
  | readUser (key : String)
  | readDriverJobs (driverId : String)
  | addCustomerJob (customerId jobId : String)
  | addDriverJob (driverId jobId : String)
  | removeDriverJob (driverId jobId : String)
deriving Repr, DecidableEq

/-- `CacheKeys::driver_by_id` rendered to its key string
(`["driver", "id", id].join(":")`). -/
def driverByIdKey (driverId : String) : String :=
  "driver:id:" ++ driverId

/-- Modelled from the spec: `put_job` — full-record overwrite under the
job's ID. -/
def putJob {F : Type} (s : Store F) (j : Job F) : Store F :=
  { s with jobs := fun k => if k = j.id then some j else s.jobs k }

/-- Modelled from the spec: set-add (Redis `SADD`) on a secondary index. -/
def setAdd (l : List String) (x : String) : List String :=
  if l.contains x then l else l ++ [x]

/-- Modelled from the spec: set-remove (Redis `SREM`) on a secondary
index. -/
def setRemove (l : List String) (x : String) : List String :=
  l.filter (fun y => y ≠ x)

/-- Modelled from the spec: `add_job_to_customer_index`. -/
def addCustomerJobIdx {F : Type} (s : Store F) (customerId jobId : String) : Store F :=
  { s with customerJobs := fun k =>
      if k = customerId then setAdd (s.customerJobs k) jobId else s.customerJobs k }

/-- Modelled from the spec: `add_job_to_driver_index`. -/
def addDriverJobIdx {F : Type} (s : Store F) (driverId jobId : String) : Store F :=
  { s with driverJobs := fun k =>
      if k = driverId then setAdd (s.driverJobs k) jobId else s.driverJobs k }

/-- Modelled from the spec: `remove_job_from_driver_index`. -/
def removeDriverJobIdx {F : Type} (s : Store F) (driverId jobId : String) : Store F :=
  { s with driverJobs := fun k =>
      if k = driverId then setRemove (s.driverJobs k) jobId else s.driverJobs k }

/-- Outcome of one engine operation: the Rust `Result`, the store after the
call, and the ordered repository accesses the call performed. -/
def SvcOut (F α : Type) : Type :=
  Except SparrowError α × Store F × List RepoOp

/-! ## Dispatch engine (src/services/job_service.rs) -/

/-- `JobService::to_response`. -/
def to_response {F : Type} (job : Job F) : JobResponse F :=
  { id := job.id
    customer_id := job.customer_id
    driver_id := job.driver_id
    status := job.status
    priority := job.priority
    pickup_location := job.pickup_location
    dropoff_location := job.dropoff_location
    estimated_distance_km := job.estimated_distance_km
    estimated_duration_min := job.estimated_duration_min
    package := job.package
    created_at := job.created_at
    pickup_time := job.pickup_time
    dropoff_time := job.dropoff_time
    pricing := job.pricing
    payment_status := job.payment_status
    tracking_code := job.tracking_code
    notes := job.notes
    rating := job.rating }

/-- `JobService::calculate_distance_km`: the haversine formula with Earth
radius 6371 km, transcribed operation by operation. -/
def calculate_distance_km {F : Type} (O : FloatOps F) (loc1 loc2 : Location F) : F :=
  let earth_radius_km := O.lit 6371
  let lat1_rad := O.toRadians loc1.latitude
  let lat2_rad := O.toRadians loc2.latitude
  let delta_lat := O.toRadians (O.sub loc2.latitude loc1.latitude)
  let delta_lon := O.toRadians (O.sub loc2.longitude loc1.longitude)
  let a := O.add (O.powi (O.sin (O.div delta_lat (O.lit 2))) 2)
    (O.mul (O.mul (O.cos lat1_rad) (O.cos lat2_rad))
      (O.powi (O.sin (O.div delta_lon (O.lit 2))) 2))
  let c := O.mul (O.lit 2) (O.atan2 (O.sqrt a) (O.sqrt (O.sub (O.lit 1) a)))
  O.mul earth_radius_km c

/-- `JobService::calculate_duration_min`:
`((distance_km / 30.0) * 60.0) as i32`. -/
def calculate_duration_min {F : Type} (O : FloatOps F) (distance_km : F) : Int :=
  O.toI32 (O.mul (O.div distance_km (O.lit 30)) (O.lit 60))

/-- `JobService::calculate_pricing`: the Ghana pricing model, in source
order (literals are given as the exact rationals of the source text:
`2.5 = 5/2`, `0.2 = 1/5`, `0.1 = 1/10`, `0.03 = 3/100`). -/
def calculate_pricing {F : Type} (O : FloatOps F) (request : JobEstimateRequest F) :
    Pricing F :=
  let distance_km := calculate_distance_km O request.pickup_location request.dropoff_location
  let duration_min := calculate_duration_min O distance_km
  let base_fare :=
    match request.priority with
    | .Standard => O.lit 15
    | .Express => O.lit 25
    | .SameDay => O.lit 40
    | .Emergency => O.lit 60
  let distance_fare := O.mul distance_km (O.lit (5 / 2))
  let time_fare := O.mul (O.ofInt duration_min) (O.lit (1 / 5))
  let package_surcharge :=
    match request.package.package_type with
    | .Document => O.lit 0
    | .SmallPackage => O.lit 5
    | .MediumPackage => O.lit 10
    | .LargePackage => O.lit 20
    | .ExtraLarge => O.lit 40
    | .Food => O.lit 8
    | .Grocery => O.lit 15
    | .Pharmacy => O.lit 5
    | .Electronics => O.lit 15
    | .Fragile => O.lit 12
  let priority_surcharge :=
    match request.priority with
    | .Standard => O.lit 0
    | .Express => O.lit 10
    | .SameDay => O.lit 25
    | .Emergency => O.lit 50
  let subtotal := O.add (O.add (O.add (O.add base_fare distance_fare) time_fare)
    package_surcharge) priority_surcharge
  let service_fee := O.mul subtotal (O.lit (1 / 10))
  let tax := O.mul subtotal (O.lit (3 / 100))
  let total := O.add (O.add subtotal service_fee) tax
  { base_fare := base_fare
    distance_fare := distance_fare
    time_fare := time_fare
    package_surcharge := package_surcharge
    priority_surcharge := priority_surcharge
    service_fee := service_fee
    tax := tax
    total := total
    currency := "GHS"
    estimated_cost := true }

/-- Whether `cs` starts with `pat` (Rust `str::starts_with`, used by
`str::replace`). -/
def leadsWith : List Char → List Char → Bool
  | _, [] => true
  | [], _ :: _ => false
  | c :: cs, p :: ps => c = p && leadsWith cs ps

/-- Recursion core of Rust `str::replace(pat, rep)` for a non-empty
pattern: replace each non-overlapping occurrence left to right.  The fuel
argument only makes the recursion structural (each step consumes at least
one character, so fuel `s.length` never runs out). -/
def rustReplaceFuel : Nat → List Char → List Char → List Char → List Char
  | 0, s, _, _ => s
  | _ + 1, [], _, _ => []
  | fuel + 1, c :: rest, pat, rep =>
    if pat ≠ [] ∧ leadsWith (c :: rest) pat = true then
      rep ++ rustReplaceFuel fuel (List.drop (pat.length - 1) rest) pat rep
    else
      c :: rustReplaceFuel fuel rest pat rep

/-- Rust `str::replace(pat, rep)`. -/
def rustReplace (s pat rep : List Char) : List Char :=
  rustReplaceFuel s.length s pat rep

/-- The per-call inputs `create_job` draws from the environment: the
current time (every `Utc::now()` in one call, and the date embedded in the
two generated IDs) and the two independent random suffixes — one for the
tracking code's generated ID, one for the job ID set by
`set_generated_id`. -/
structure CreationCtx where
  now : Int
  today : UtcDate
  trackingSuffix : List Char
  idSuffix : List Char

/-- The tracking code minted by `create_job`:
`IdGenerator::generate(IdType::Job).replace("job-", "GH")`. -/
def trackingCodeOf (d : UtcDate) (sfx : List Char) : String :=
  String.mk (rustReplace (generate_with_timestamp .Job d sfx)
    ['j', 'o', 'b', '-'] ['G', 'H'])

/-- The `JobEstimateRequest` that `create_job` builds from its request
(`estimate_request` in the source) before calling `calculate_pricing`. -/
def estimate_request_of {F : Type} (request : JobRequest F) : JobEstimateRequest F :=
  { pickup_location := request.pickup_location
    dropoff_location := request.dropoff_location
    package := request.package
    priority := request.priority }

/-- The `Job` record built by `JobService::create_job` before it is cached
(field values in source order; `expires_at` is
`Utc::now() + Duration::hours(2)`). -/
def createdJob {F : Type} (O : FloatOps F) (ctx : CreationCtx) (request : JobRequest F) :
    Job F :=
  let estimate_request := estimate_request_of request
  let pricing := calculate_pricing O estimate_request
  let distance_km := calculate_distance_km O request.pickup_location request.dropoff_location
  let duration_min := calculate_duration_min O distance_km
  { id := String.mk (generate_with_timestamp .Job ctx.today ctx.idSuffix)
    customer_id := request.customer_id
    driver_id := none
    status := .Pending
    priority := request.priority
    pickup_location := request.pickup_location
    dropoff_location := request.dropoff_location
    estimated_distance_km := distance_km
    estimated_duration_min := duration_min
    package := request.package
    created_at := ctx.now
    accepted_at := none
    pickup_time := none
    dropoff_time := none
    cancelled_at := none
    expires_at := ctx.now + 7200
    pricing := pricing
    payment_method_id := request.payment_method_id
    payment_status := .Pending
    tracking_code := trackingCodeOf ctx.today ctx.trackingSuffix
    notes := request.notes
    rating := none
    feedback := none
    offered_to_drivers := []
    rejected_by_drivers := []
    updated_at := ctx.now }

/-- `JobService::create_job`: build the record, cache it, index it by
customer, return the response. -/
def create_job {F : Type} (O : FloatOps F) (ctx : CreationCtx) (s : Store F)
    (request : JobRequest F) : RustResult (SvcOut F (JobResponse F)) :=
  let job := createdJob O ctx request
  .ret (.ok (to_response job),
    addCustomerJobIdx (putJob s job) request.customer_id job.id,
    [.writeJob job.id, .addCustomerJob request.customer_id job.id])

/-- `JobService::get_job`: ID-format gate first (invalid → `Ok(None)` with
no repository access), then a read under `CacheKey::Simple(job_id)`. -/
def get_job {F : Type} (s : Store F) (jobId : String) :
    RustResult (SvcOut F (Option (JobResponse F))) :=
  match validate_id jobId.data (some .Job) with
  | .panic => .panic
  | .ret false => .ret (.ok none, s, [])
  | .ret true =>
    match s.jobs jobId with
    | some job => .ret (.ok (some (to_response job)), s, [.readJob jobId])
    | none => .ret (.ok none, s, [.readJob jobId])

/-- Insertion step of the stable sort modelling Rust `sort_by`. -/
def insertBy {α : Type} (le : α → α → Bool) (x : α) : List α → List α
  | [] => [x]
  | y :: ys => if le x y then x :: y :: ys else y :: insertBy le x ys

/-- Stable sort modelling `Vec::sort_by`. -/
def sortBy {α : Type} (le : α → α → Bool) : List α → List α
  | [] => []
  | x :: xs => insertBy le x (sortBy le xs)

/-- The loop body of `get_jobs_by_driver`: `get_job` on each indexed ID,
keeping the found ones, `?`-propagating errors and accumulating the
repository trace. -/
def collectJobs {F : Type} (s : Store F) :
    List String → RustResult (Except SparrowError (List (JobResponse F)) × List RepoOp)
  | [] => .ret (.ok [], [])
  | jobId :: rest =>
    match get_job s jobId with
    | .panic => .panic
    | .ret (.error e, _, t) => .ret (.error e, t)
    | .ret (.ok found, _, t) =>
      match collectJobs s rest with
      | .panic => .panic
      | .ret (.error e, t') => .ret (.error e, t ++ t')
      | .ret (.ok jobs, t') =>
        .ret (.ok (match found with | some j => j :: jobs | none => jobs), t ++ t')

/-- `JobService::get_jobs_by_driver`: driver-ID gate, per-driver index
read, `get_job` loop, then sort newest first
(`sort_by(|a, b| b.created_at.cmp(&a.created_at))`). -/
def get_jobs_by_driver {F : Type} (s : Store F) (driverId : String) :
    RustResult (SvcOut F (List (JobResponse F))) :=
  match validate_id driverId.data (some .Driver) with
  | .panic => .panic
  | .ret false =>
    .ret (.error (.ValidationFailed [⟨"driver_id", "Invalid driver ID format"⟩]), s, [])
  | .ret true =>
    let jobIds := s.driverJobs driverId
    match collectJobs s jobIds with
    | .panic => .panic
    | .ret (.error e, t) => .ret (.error e, s, .readDriverJobs driverId :: t)
    | .ret (.ok jobs, t) =>
      .ret (.ok (sortBy (fun a b => decide (b.created_at ≤ a.created_at)) jobs), s,
        .readDriverJobs driverId :: t)

/-- `JobService::update_job_status`: job-ID gate, read, unconditional
status overwrite plus per-status timestamp, then — only after the read —
the optional driver-ID gate, write-back. -/
def update_job_status {F : Type} (now : Int) (s : Store F) (upd : JobStatusUpdate) :
    RustResult (SvcOut F (JobResponse F)) :=
  match validate_id upd.job_id.data (some .Job) with
  | .panic => .panic
  | .ret false =>
    .ret (.error (.ValidationFailed [⟨"job_id", "Invalid job ID format"⟩]), s, [])
  | .ret true =>
    match s.jobs upd.job_id with
    | none => .ret (.error (.NotFound "Job not found"), s, [.readJob upd.job_id])
    | some job =>
      let job1 := { job with status := upd.status, updated_at := now }
      let job2 :=
        match job1.status with
        | .DriverAssigned => { job1 with accepted_at := some now }
        | .PackagePickedUp => { job1 with pickup_time := some now }
        | .DeliveryCompleted => { job1 with dropoff_time := some now }
        | .Cancelled => { job1 with cancelled_at := some now }
        | _ => job1
      match upd.driver_id with
      | some did =>
        match validate_id did.data (some .Driver) with
        | .panic => .panic
        | .ret false =>
          .ret (.error (.ValidationFailed [⟨"driver_id", "Invalid driver ID format"⟩]),
            s, [.readJob upd.job_id])
        | .ret true =>
          let job3 := { job2 with driver_id := some did }
          .ret (.ok (to_response job3), putJob s job3,
            [.readJob upd.job_id, .writeJob job3.id])
      | none =>
        .ret (.ok (to_response job2), putJob s job2,
          [.readJob upd.job_id, .writeJob job2.id])

/-- `JobService::assign_driver_to_job`: both ID gates up front, job read,
driver-user read, then an unconditional overwrite of `driver_id` /
`status` / `accepted_at` (the source has no check that `driver_id` is
still `None`), write-back and per-driver indexing. -/
def assign_driver_to_job {F : Type} (now : Int) (s : Store F) (jobId driverId : String) :
    RustResult (SvcOut F (JobResponse F)) :=
  match validate_id jobId.data (some .Job) with
  | .panic => .panic
  | .ret false => .ret (.error (SparrowError.mkValidation "job_id" "Invalid job ID format"), s, [])
  | .ret true =>
    match validate_id driverId.data (some .Driver) with
    | .panic => .panic
    | .ret false =>
      .ret (.error (SparrowError.mkValidation "driver_id" "Invalid driver ID format"), s, [])
    | .ret true =>
      match s.jobs jobId with
      | none => .ret (.error (.NotFound "Job not found"), s, [.readJob jobId])
      | some job =>
        match s.users (driverByIdKey driverId) with
        | none =>
          .ret (.error (.NotFound "Driver not found"), s,
            [.readJob jobId, .readUser (driverByIdKey driverId)])
        | some _driver =>
          let job' := { job with
            driver_id := some driverId
            status := JobStatus.DriverAssigned
            accepted_at := some now
            updated_at := now }
          .ret (.ok (to_response job'),
            addDriverJobIdx (putJob s job') driverId jobId,
            [.readJob jobId, .readUser (driverByIdKey driverId),
              .writeJob job'.id, .addDriverJob driverId jobId])

/-- `JobService::calculate_estimate`: the stand-alone pricing path — the
same `calculate_pricing` call, no repository access. -/
def calculate_estimate {F : Type} (O : FloatOps F) (s : Store F)
    (request : JobEstimateRequest F) : RustResult (SvcOut F (Pricing F)) :=
  .ret (.ok (calculate_pricing O request), s, [])

/-- `DriverService::find_nearby_drivers`: the source implementation
ignores its arguments and returns `Ok(vec![])`. -/
def find_nearby_drivers {F : Type} (_lat _lon _radius_km : F) (_limit : Nat) :
    Except SparrowError (List DriverResponse) :=
  .ok []

/-- `JobService::find_available_drivers`: no ID gate — the job is read
from the repository directly; then the driver directory is queried with a
10 km radius and a cap of 10, and the results are mapped to their IDs. -/
def find_available_drivers {F : Type} (O : FloatOps F) (s : Store F) (jobId : String) :
    RustResult (SvcOut F (List String)) :=
  match s.jobs jobId with
  | none => .ret (.error (.NotFound "Job not found"), s, [.readJob jobId])
  | some job =>
    match find_nearby_drivers (F := F) job.pickup_location.latitude
      job.pickup_location.longitude (O.lit 10) 10 with
    | .error e => .ret (.error e, s, [.readJob jobId])
    | .ok nearby => .ret (.ok (nearby.map (fun d => d.id)), s, [.readJob jobId])

/-- `JobService::cancel_job`: job-ID gate, read, unconditional cancel (no
terminal-state check): status ← `Cancelled`, `cancelled_at`/`updated_at`
set, `notes` overwritten with the reason, write-back, and the per-driver
index entry removed when a driver was assigned. -/
def cancel_job {F : Type} (now : Int) (s : Store F) (jobId : String)
    (reason : Option String) : RustResult (SvcOut F (JobResponse F)) :=
  match validate_id jobId.data (some .Job) with
  | .panic => .panic
  | .ret false => .ret (.error (SparrowError.mkValidation "job_id" "Invalid job ID format"), s, [])
  | .ret true =>
    match s.jobs jobId with
    | none => .ret (.error (.NotFound "Job not found"), s, [.readJob jobId])
    | some job =>
      let job' := { job with
        status := JobStatus.Cancelled
        cancelled_at := some now
        updated_at := now
        notes := reason }
      let s1 := putJob s job'
      match job'.driver_id with
      | some did =>
        .ret (.ok (to_response job'), removeDriverJobIdx s1 did jobId,
          [.readJob jobId, .writeJob job'.id, .removeDriverJob did jobId])
      | none =>
        .ret (.ok (to_response job'), s1, [.readJob jobId, .writeJob job'.id])

/-- `JobService::complete_job`: job-ID gate, read, unconditional
completion (no reachability check): status ← `DeliveryCompleted`,
`dropoff_time`/`updated_at` set, payment ← `Paid`, write-back (the
driver-stats branch in the source is empty). -/
def complete_job {F : Type} (now : Int) (s : Store F) (jobId : String) :
    RustResult (SvcOut F (JobResponse F)) :=
  match validate_id jobId.data (some .Job) with
  | .panic => .panic
  | .ret false =>
    .ret (.error (.ValidationFailed [⟨"job_id", "Invalid job ID format"⟩]), s, [])
  | .ret true =>
    match s.jobs jobId with
    | none => .ret (.error (.NotFound "Job not found"), s, [.readJob jobId])
    | some job =>
      let job' := { job with
        status := JobStatus.DeliveryCompleted
        dropoff_time := some now
        updated_at := now
        payment_status := PaymentStatus.Paid }
      .ret (.ok (to_response job'), putJob s job', [.readJob jobId, .writeJob job'.id])

/-! ## Concrete instances used by witnesses and counterexamples -/

/-- One concrete interpretation of the abstract `f64` operations, over `ℚ`.
The transcendental operations are given arbitrary values: no property
proved at this instance depends on them. -/
def qOps : FloatOps ℚ where
  add := (· + ·)
  sub := (· - ·)
  mul := (· * ·)
  div := (· / ·)
  sin := fun _ => 0
  cos := fun _ => 0
  sqrt := fun _ => 0
  atan2 := fun _ _ => 0
  toRadians := fun x => x
  powi := fun x _ => x
  lit := fun q => q
  ofInt := fun n => (n : ℚ)
  toI32 := fun q => Rat.floor q

/-- Sample pickup location. -/
def locP : Location ℚ :=
  { latitude := 5, longitude := 0, address := "A", city := "Accra", region := "GA",
    country := "GH", postal_code := none, contact_name := "P", contact_phone := "1",
    instructions := none }

/-- Sample dropoff location. -/
def locD : Location ℚ :=
  { locP with latitude := 6, longitude := 1, address := "B" }

/-- Sample package. -/
def pkgA : PackageDetails ℚ :=
  { package_type := .SmallPackage, description := "box", weight_kg := 2,
    dimensions := ⟨1, 1, 1⟩, estimated_value := none, is_fragile := false,
    requires_signature := false, contains := none }

/-- Sample stored pricing. -/
def pricingA : Pricing ℚ :=
  { base_fare := 15, distance_fare := 0, time_fare := 0, package_surcharge := 5,
    priority_surcharge := 0, service_fee := 2, tax := 1, total := 23,
    currency := "GHS", estimated_cost := true }

/-- A stored pending job under ID `job-240101-aaaaa`. -/
def baseJob : Job ℚ :=
  { id := "job-240101-aaaaa", customer_id := "usr-240101-ccccc", driver_id := none,
    status := .Pending, priority := .Standard, pickup_location := locP,
    dropoff_location := locD, estimated_distance_km := 1, estimated_duration_min := 2,
    package := pkgA, created_at := 0, accepted_at := none, pickup_time := none,
    dropoff_time := none, cancelled_at := none, expires_at := 7200,
    pricing := pricingA, payment_method_id := "pay-240101-ppppp",
    payment_status := .Pending, tracking_code := "GH240101-ttttt", notes := none,
    rating := none, feedback := none, offered_to_drivers := [],
    rejected_by_drivers := [], updated_at := 0 }

/-- The same job already assigned to driver `drv-240101-d1d1d`. -/
def jobAssigned : Job ℚ :=
  { baseJob with
    driver_id := some "drv-240101-d1d1d"
    status := .DriverAssigned
    accepted_at := some 10 }

/-- The same job in the terminal state `DeliveryCompleted`. -/
def jobCompleted : Job ℚ :=
  { baseJob with
    driver_id := some "drv-240101-d1d1d"
    status := .DeliveryCompleted
    dropoff_time := some 50
    payment_status := .Paid }

/-- The empty repository. -/
def emptyStore : Store ℚ :=
  { jobs := fun _ => none, users := fun _ => none, customerJobs := fun _ => [],
    driverJobs := fun _ => [] }

/-- A repository holding exactly one job. -/
def storeWithJob (j : Job ℚ) : Store ℚ :=
  { emptyStore with jobs := fun k => if k = j.id then some j else none }

/-- A repository holding `jobAssigned` plus the user record of a second
driver `drv-240101-e2e2e`. -/
def storeC1 : Store ℚ :=
  { storeWithJob jobAssigned with
    users := fun k =>
      if k = driverByIdKey "drv-240101-e2e2e" then some ⟨"drv-240101-e2e2e"⟩ else none }

/-- A sample creation request. -/
def reqA : JobRequest ℚ :=
  { customer_id := "usr-240101-ccccc", pickup_location := locP,
    dropoff_location := locD, package := pkgA, priority := .Standard,
    payment_method_id := "pay-240101-ppppp", notes := none,
    desired_pickup_time := none }

/-- Creation context drawing tracking-code suffix `abcde`. -/
def ctxA : CreationCtx :=
  { now := 0, today := ⟨2024, 1, 1⟩, trackingSuffix := ['a', 'b', 'c', 'd', 'e'],
    idSuffix := ['f', 'f', 'f', '1', '1'] }

/-- Creation context identical to `ctxA` except for the tracking-code
suffix draw. -/
def ctxB : CreationCtx :=
  { ctxA with trackingSuffix := ['1', '2', '3', '4', '5'] }

/-- The `Ok` payload of an operation outcome, when it neither panicked nor
errored. -/
def resultOk {F α : Type} : RustResult (SvcOut F α) → Option α
  | .ret (.ok a, _, _) => some a
  | _ => none

/-- The error of an operation outcome, when it returned one. -/
def resultErr {F α : Type} : RustResult (SvcOut F α) → Option SparrowError
  | .ret (.error e, _, _) => some e
  | _ => none

/-- The store after an operation, when it did not panic. -/
def resultStore {F α : Type} : RustResult (SvcOut F α) → Option (Store F)
  | .ret (_, s, _) => some s
  | .panic => none

/-! ## Theorems -/

/-! ### Helper lemmas about the ID components -/

lemma splitDash_ne_nil (cs : List Char) : splitDash cs ≠ [] := by
  cases cs with
  | nil => simp [splitDash]
  | cons c rest =>
    simp only [splitDash]
    split
    · simp
    · split <;> simp

lemma splitDash_no_dash (xs : List Char) (h : '-' ∉ xs) : splitDash xs = [xs] := by
  induction xs with
  | nil => rfl
  | cons c rest ih =>
    have hc : c ≠ '-' := by intro e; exact h (by simp [e])
    have hr : '-' ∉ rest := by intro m; exact h (by simp [m])
    simp [splitDash, ih hr, hc]

lemma splitDash_append (xs ys : List Char) (h : '-' ∉ xs) :
    splitDash (xs ++ '-' :: ys) = xs :: splitDash ys := by
  induction xs with
  | nil =>
    simp only [List.nil_append, splitDash]
    rcases h' : splitDash ys with _ | ⟨seg, segs⟩
    · exact absurd h' (splitDash_ne_nil ys)
    · simp
  | cons c rest ih =>
    have hc : c ≠ '-' := by intro e; exact h (by simp [e])
    have hr : '-' ∉ rest := by intro m; exact h (by simp [m])
    simp [splitDash, ih hr, hc]

lemma digitChar_facts (n : Nat) (h : n < 10) :
    (Nat.digitChar n).utf8Size = 1 ∧ (Nat.digitChar n).isDigit = true ∧
    Nat.digitChar n ≠ '-' ∧ Nat.digitChar n ≠ '+' ∧ digVal (Nat.digitChar n) = n := by
  interval_cases n <;> exact ⟨rfl, rfl, by decide, by decide, by decide⟩

lemma hex_char_facts (c : Char) (h : hexChars.contains c = true) :
    c.utf8Size = 1 ∧ c ≠ '-' := by
  have h' : c ∈ hexChars := by simpa using h
  exact (by decide : ∀ x ∈ hexChars, x.utf8Size = 1 ∧ x ≠ '-') c h'

lemma alnum_char_facts (c : Char) (h : alnumChars.contains c = true) :
    c.utf8Size = 1 ∧ c ≠ '-' := by
  have h' : c ∈ alnumChars := by simpa using h
  exact (by decide : ∀ x ∈ alnumChars, x.utf8Size = 1 ∧ x ≠ '-') c h'

lemma tag_no_dash (k : IdType) : '-' ∉ k.tag := by cases k <;> decide

lemma tagToType_tag (k : IdType) : tagToType k.tag = some k := by cases k <;> rfl

lemma byteTake_succ_one (c : Char) (cs : List Char) (n : Nat) (h : c.utf8Size = 1) :
    byteTake (c :: cs) (n + 1) = (byteTake cs n).map (c :: ·) := by
  rw [byteTake, h]
  simp

lemma byteDrop_succ_one (c : Char) (cs : List Char) (n : Nat) (h : c.utf8Size = 1) :
    byteDrop (c :: cs) (n + 1) = byteDrop cs n := by
  rw [byteDrop, h]
  simp

lemma byteTake_zero (cs : List Char) : byteTake cs 0 = some [] := by
  cases cs <;> rfl

lemma byteDrop_zero (cs : List Char) : byteDrop cs 0 = some cs := by
  cases cs <;> rfl

lemma byteTake_two (c1 c2 : Char) (cs : List Char)
    (h1 : c1.utf8Size = 1) (h2 : c2.utf8Size = 1) :
    byteTake (c1 :: c2 :: cs) 2 = some [c1, c2] := by
  rw [show (2 : Nat) = 1 + 1 from rfl, byteTake_succ_one _ _ _ h1,
    show (1 : Nat) = 0 + 1 from rfl, byteTake_succ_one _ _ _ h2, byteTake_zero]
  rfl

lemma byteDrop_two (c1 c2 : Char) (cs : List Char)
    (h1 : c1.utf8Size = 1) (h2 : c2.utf8Size = 1) :
    byteDrop (c1 :: c2 :: cs) 2 = some cs := by
  rw [show (2 : Nat) = 1 + 1 from rfl, byteDrop_succ_one _ _ _ h1,
    show (1 : Nat) = 0 + 1 from rfl, byteDrop_succ_one _ _ _ h2, byteDrop_zero]

lemma byteDrop_four (c1 c2 c3 c4 : Char) (cs : List Char)
    (h1 : c1.utf8Size = 1) (h2 : c2.utf8Size = 1)
    (h3 : c3.utf8Size = 1) (h4 : c4.utf8Size = 1) :
    byteDrop (c1 :: c2 :: c3 :: c4 :: cs) 4 = some cs := by
  rw [show (4 : Nat) = 3 + 1 from rfl, byteDrop_succ_one _ _ _ h1,
    show (3 : Nat) = 2 + 1 from rfl, byteDrop_succ_one _ _ _ h2,
    byteDrop_two _ _ _ h3 h4]

lemma suffix5_facts (a b c e f : Char) (hs : validSuffix [a, b, c, e, f] = true) :
    ∀ x ∈ [a, b, c, e, f], x.utf8Size = 1 ∧ x ≠ '-' := by
  simp only [validSuffix, Bool.or_eq_true, Bool.and_eq_true] at hs
  intro x hx
  simp only [List.mem_cons, List.not_mem_nil, or_false] at hx
  rcases hs with ⟨⟨⟨⟨h1, h2⟩, h3⟩, h4⟩, h5⟩ | ⟨⟨⟨⟨h1, h2⟩, h3⟩, h4⟩, h5⟩ <;>
    rcases hx with rfl | rfl | rfl | rfl | rfl <;>
    first
      | exact hex_char_facts _ (by assumption)
      | exact alnum_char_facts _ (by assumption)

lemma digVal_two : digVal '2' = 2 := rfl

lemma digVal_zero : digVal '0' = 0 := rfl

lemma parseDigits_year (y1 y2 : Char) (v1 v2 : Nat)
    (h1d : y1.isDigit = true) (h2d : y2.isDigit = true)
    (h1v : digVal y1 = v1) (h2v : digVal y2 = v2) :
    parseDigits ('2' :: '0' :: [y1, y2]) = some (2000 + (10 * v1 + v2)) := by
  have hcond : ('2' :: '0' :: [y1, y2]) ≠ [] ∧
      (('2' :: '0' :: [y1, y2]).all Char.isDigit) = true := by
    refine ⟨by simp, ?_⟩
    simp [List.all_cons, h1d, h2d]
  rw [parseDigits, if_pos hcond]
  simp only [List.foldl_cons, List.foldl_nil, digVal_two, digVal_zero, h1v, h2v]
  congr 1
  ring

lemma parseRustU32_pad (m1 m2 : Char) (v1 v2 : Nat)
    (h1d : m1.isDigit = true) (h2d : m2.isDigit = true) (h1p : m1 ≠ '+')
    (h1v : digVal m1 = v1) (h2v : digVal m2 = v2) :
    parseRustU32 [m1, m2] = some (10 * v1 + v2) := by
  have hcond : ([m1, m2] : List Char) ≠ [] ∧ (([m1, m2] : List Char).all Char.isDigit) = true := by
    refine ⟨by simp, ?_⟩
    simp [List.all_cons, h1d, h2d]
  rw [parseRustU32]
  simp only [h1p, if_false, if_neg h1p]
  rw [parseDigits, if_pos hcond]
  simp only [List.foldl_cons, List.foldl_nil, h1v, h2v]
  congr 1
  ring

/-- Claim C5: for every entity kind and every calendar date carried by a UTC
timestamp, an ID generated by `generate_with_timestamp` with any suffix the
generator's suffix policy can draw parses back (`parse_id`) to that kind and
date, and validates (`validate_id`) against the kind. -/
theorem claim_C5_generator_roundtrip (kind : IdType) (d : UtcDate) (suffix : List Char)
    (hm1 : 1 ≤ d.month) (hm2 : d.month ≤ 12) (hd1 : 1 ≤ d.day) (hd2 : d.day ≤ 31)
    (hs : validSuffix suffix = true) :
    parse_id (generate_with_timestamp kind d suffix) =
      .ret (some ⟨kind, 2000 + d.year % 100, d.month, d.day, suffix⟩) ∧
    validate_id (generate_with_timestamp kind d suffix) (some kind) = .ret true := by
  obtain ⟨a, b, c, e, f, rfl⟩ : ∃ a b c e f, suffix = [a, b, c, e, f] := by
    rcases suffix with _ | ⟨a, _ | ⟨b, _ | ⟨c, _ | ⟨e, _ | ⟨f, _ | ⟨g, t⟩⟩⟩⟩⟩⟩ <;>
      first
        | exact ⟨_, _, _, _, _, rfl⟩
        | (exfalso; simp [validSuffix] at hs)
  have hsuf := suffix5_facts a b c e f hs
  have hsd : '-' ∉ [a, b, c, e, f] := fun hm => (hsuf '-' hm).2 rfl
  have hy1 := digitChar_facts (d.year % 100 / 10 % 10) (by omega)
  have hy2 := digitChar_facts (d.year % 100 % 10) (by omega)
  have hmo1 := digitChar_facts (d.month / 10 % 10) (by omega)
  have hmo2 := digitChar_facts (d.month % 10) (by omega)
  have hdd1 := digitChar_facts (d.day / 10 % 10) (by omega)
  have hdd2 := digitChar_facts (d.day % 10) (by omega)
  have hdate_nd : '-' ∉ fmtYYMMDD d := by
    intro hmem
    simp only [fmtYYMMDD, pad2, List.cons_append, List.nil_append, List.mem_cons,
      List.not_mem_nil, or_false] at hmem
    rcases hmem with h | h | h | h | h | h
    · exact hy1.2.2.1 h.symm
    · exact hy2.2.2.1 h.symm
    · exact hmo1.2.2.1 h.symm
    · exact hmo2.2.2.1 h.symm
    · exact hdd1.2.2.1 h.symm
    · exact hdd2.2.2.1 h.symm
  have key : splitDash (generate_with_timestamp kind d [a, b, c, e, f]) =
      [IdType.tag kind, fmtYYMMDD d, [a, b, c, e, f]] := by
    unfold generate_with_timestamp
    rw [splitDash_append _ _ (tag_no_dash kind), splitDash_append _ _ hdate_nd,
      splitDash_no_dash _ hsd]
  have hlen_dp : utf8Len (fmtYYMMDD d) = 6 := by
    simp [utf8Len, fmtYYMMDD, pad2, hy1.1, hy2.1, hmo1.1, hmo2.1, hdd1.1, hdd2.1]
  have hlen_sfx : utf8Len [a, b, c, e, f] = 5 := by
    simp [utf8Len, (hsuf a (by simp)).1, (hsuf b (by simp)).1, (hsuf c (by simp)).1,
      (hsuf e (by simp)).1, (hsuf f (by simp)).1]
  have hdp : fmtYYMMDD d =
      Nat.digitChar (d.year % 100 / 10 % 10) :: Nat.digitChar (d.year % 100 % 10) ::
      Nat.digitChar (d.month / 10 % 10) :: Nat.digitChar (d.month % 10) ::
      Nat.digitChar (d.day / 10 % 10) :: Nat.digitChar (d.day % 10) :: [] := rfl
  have hyear := parseDigits_year _ _ _ _ hy1.2.1 hy2.2.1 hy1.2.2.2.2 hy2.2.2.2.2
  have hmonth := parseRustU32_pad _ _ _ _ hmo1.2.1 hmo2.2.1 hmo1.2.2.2.1
    hmo1.2.2.2.2 hmo2.2.2.2.2
  have hday := parseRustU32_pad _ _ _ _ hdd1.2.1 hdd2.2.1 hdd1.2.2.2.1
    hdd1.2.2.2.2 hdd2.2.2.2.2
  have hval_y : 2000 + (10 * (d.year % 100 / 10 % 10) + d.year % 100 % 10) =
      2000 + d.year % 100 := by omega
  have hval_m : 10 * (d.month / 10 % 10) + d.month % 10 = d.month := by omega
  have hval_d : 10 * (d.day / 10 % 10) + d.day % 10 = d.day := by omega
  have hbt : byteTake (fmtYYMMDD d) 2 =
      some [Nat.digitChar (d.year % 100 / 10 % 10), Nat.digitChar (d.year % 100 % 10)] := by
    rw [hdp]; exact byteTake_two _ _ _ hy1.1 hy2.1
  have hbs1 : byteSlice (fmtYYMMDD d) 2 4 =
      some [Nat.digitChar (d.month / 10 % 10), Nat.digitChar (d.month % 10)] := by
    rw [hdp, byteSlice, byteDrop_two _ _ _ hy1.1 hy2.1]
    exact byteTake_two _ _ _ hmo1.1 hmo2.1
  have hbs2 : byteSlice (fmtYYMMDD d) 4 6 =
      some [Nat.digitChar (d.day / 10 % 10), Nat.digitChar (d.day % 10)] := by
    rw [hdp, byteSlice, byteDrop_four _ _ _ _ _ hy1.1 hy2.1 hmo1.1 hmo2.1]
    exact byteTake_two _ _ _ hdd1.1 hdd2.1
  have hmain : parse_id (generate_with_timestamp kind d [a, b, c, e, f]) =
      .ret (some ⟨kind, 2000 + d.year % 100, d.month, d.day, [a, b, c, e, f]⟩) := by
    rw [parse_id.eq_def, key]
    simp only
    rw [if_neg (by simp [hlen_dp, hlen_sfx]), tagToType_tag]
    simp only [hbt, hbs1, hbs2, hyear, hmonth, hday, hval_y, hval_m, hval_d]
    rw [if_neg (by omega)]
  exact ⟨hmain, by rw [validate_id, hmain]; simp⟩

theorem claim_C5_witness :
    parse_id (generate_with_timestamp .Job ⟨2023, 12, 7⟩ ['a', '1', 'b', '2', 'c']) =
      .ret (some ⟨.Job, 2023, 12, 7, ['a', '1', 'b', '2', 'c']⟩) ∧
    validate_id (generate_with_timestamp .Job ⟨2023, 12, 7⟩ ['a', '1', 'b', '2', 'c'])
      (some .Job) = .ret true :=
  claim_C5_generator_roundtrip .Job ⟨2023, 12, 7⟩ ['a', '1', 'b', '2', 'c']
    (by decide) (by decide) (by decide) (by decide) (by decide)

theorem claim_C6_parse_reject_divergence :
    parse_id "job-日日-abcde".data = .panic ∧
    parse_id "job-12+4+6-abcde".data =
      .ret (some ⟨.Job, 2012, 4, 6, "abcde".data⟩) ∧
    validate_id "job-12+4+6-abcde".data none = .ret true := by
  refine ⟨by decide, by decide, by decide⟩

theorem claim_C10_validate_laxity :
    validate_id "job-230231-!!@#$".data none = .ret true ∧
    (∀ c ∈ "!!@#$".data, ¬ c ∈ hexChars ∧ ¬ c ∈ alnumChars) ∧
    parse_id "job-230231-!!@#$".data =
      .ret (some ⟨.Job, 2023, 2, 31, "!!@#$".data⟩) ∧
    parse_creation_date "job-230231-!!@#$".data = .ret none := by
  refine ⟨by decide, by decide, by decide, by decide⟩

/-- Claim C1 (refuting evidence): `storeC1` holds a job whose `driver_id`
is already `drv-240101-d1d1d`; `assign_driver_to_job` with the other driver
`drv-240101-e2e2e` does not fail with a conflict — it succeeds and the
stored `driver_id` is overwritten. -/
theorem claim_C1_counterexample :
    jobAssigned.driver_id = some "drv-240101-d1d1d" ∧
    (resultOk (assign_driver_to_job 100 storeC1 "job-240101-aaaaa"
      "drv-240101-e2e2e")).map (fun r => r.driver_id) = some (some "drv-240101-e2e2e") ∧
    ((resultStore (assign_driver_to_job 100 storeC1 "job-240101-aaaaa"
      "drv-240101-e2e2e")).bind (fun s => s.jobs "job-240101-aaaaa")).map
      (fun j => j.driver_id) = some (some "drv-240101-e2e2e") := by
  refine ⟨rfl, rfl, rfl⟩

/-- Claim C1 (amended): whenever the job and the driver's user record
exist (and both IDs are well-formed), `assign_driver_to_job` succeeds and
unconditionally overwrites `driver_id`, `status`, `accepted_at`,
`updated_at` — whether or not `driver_id` was already set; the source has
no conflict path. -/
theorem claim_C1_amended {F : Type} (now : Int) (s : Store F) (jobId driverId : String)
    (job : Job F) (u : User)
    (hjv : validate_id jobId.data (some .Job) = .ret true)
    (hdv : validate_id driverId.data (some .Driver) = .ret true)
    (hj : s.jobs jobId = some job)
    (hu : s.users (driverByIdKey driverId) = some u) :
    assign_driver_to_job now s jobId driverId =
      .ret (.ok (to_response { job with
          driver_id := some driverId
          status := JobStatus.DriverAssigned
          accepted_at := some now
          updated_at := now }),
        addDriverJobIdx (putJob s { job with
          driver_id := some driverId
          status := JobStatus.DriverAssigned
          accepted_at := some now
          updated_at := now }) driverId jobId,
        [.readJob jobId, .readUser (driverByIdKey driverId), .writeJob job.id,
          .addDriverJob driverId jobId]) := by
  simp only [assign_driver_to_job, hjv, hdv, hj, hu]

theorem claim_C1_amended_witness :
    assign_driver_to_job 100 storeC1 "job-240101-aaaaa" "drv-240101-e2e2e" =
      .ret (.ok (to_response { jobAssigned with
          driver_id := some "drv-240101-e2e2e"
          status := JobStatus.DriverAssigned
          accepted_at := some 100
          updated_at := 100 }),
        addDriverJobIdx (putJob storeC1 { jobAssigned with
          driver_id := some "drv-240101-e2e2e"
          status := JobStatus.DriverAssigned
          accepted_at := some 100
          updated_at := 100 }) "drv-240101-e2e2e" "job-240101-aaaaa",
        [.readJob "job-240101-aaaaa", .readUser (driverByIdKey "drv-240101-e2e2e"),
          .writeJob "job-240101-aaaaa", .addDriverJob "drv-240101-e2e2e" "job-240101-aaaaa"]) :=
  claim_C1_amended 100 storeC1 "job-240101-aaaaa" "drv-240101-e2e2e" jobAssigned
    ⟨"drv-240101-e2e2e"⟩ (by decide) (by decide) rfl rfl

/-- Claim C2 (refuting evidence): on a job still in `Pending`,
`complete_job` does not fail with a conflict — it returns `Ok` and silently
sets the stored job to `DeliveryCompleted` (and payment to `Paid`). -/
theorem claim_C2_counterexample :
    baseJob.status = .Pending ∧
    resultErr (complete_job 100 (storeWithJob baseJob) "job-240101-aaaaa") = none ∧
    (resultOk (complete_job 100 (storeWithJob baseJob) "job-240101-aaaaa")).map
      (fun r => r.status) = some .DeliveryCompleted ∧
    ((resultStore (complete_job 100 (storeWithJob baseJob) "job-240101-aaaaa")).bind
      (fun s => s.jobs "job-240101-aaaaa")).map (fun j => (j.status, j.payment_status)) =
      some (.DeliveryCompleted, .Paid) := by
  refine ⟨rfl, rfl, rfl, rfl⟩

/-- Claim C2 (amended): for every stored job — whatever its current
status, `Pending` included — `complete_job` succeeds, unconditionally
setting `DeliveryCompleted`, `dropoff_time`, `updated_at` and
`payment_status = Paid`; the source has no reachability check. -/
theorem claim_C2_amended {F : Type} (now : Int) (s : Store F) (jobId : String)
    (job : Job F)
    (hv : validate_id jobId.data (some .Job) = .ret true)
    (hj : s.jobs jobId = some job) :
    complete_job now s jobId =
      .ret (.ok (to_response { job with
          status := JobStatus.DeliveryCompleted
          dropoff_time := some now
          updated_at := now
          payment_status := PaymentStatus.Paid }),
        putJob s { job with
          status := JobStatus.DeliveryCompleted
          dropoff_time := some now
          updated_at := now
          payment_status := PaymentStatus.Paid },
        [.readJob jobId, .writeJob job.id]) := by
  simp only [complete_job, hv, hj]

theorem claim_C2_amended_witness :
    complete_job 100 (storeWithJob baseJob) "job-240101-aaaaa" =
      .ret (.ok (to_response { baseJob with
          status := JobStatus.DeliveryCompleted
          dropoff_time := some 100
          updated_at := 100
          payment_status := PaymentStatus.Paid }),
        putJob (storeWithJob baseJob) { baseJob with
          status := JobStatus.DeliveryCompleted
          dropoff_time := some 100
          updated_at := 100
          payment_status := PaymentStatus.Paid },
        [.readJob "job-240101-aaaaa", .writeJob "job-240101-aaaaa"]) :=
  claim_C2_amended 100 (storeWithJob baseJob) "job-240101-aaaaa" baseJob
    (by decide) rfl

/-- Claim C3 (refuting evidence): on a job in the terminal state
`DeliveryCompleted`, `cancel_job` does not fail — it returns `Ok` and
mutates the stored record (status becomes `Cancelled`, `cancelled_at` and
`notes` are overwritten). -/
theorem claim_C3_counterexample :
    jobCompleted.status = .DeliveryCompleted ∧
    resultErr (cancel_job 100 (storeWithJob jobCompleted) "job-240101-aaaaa"
      (some "late")) = none ∧
    ((resultStore (cancel_job 100 (storeWithJob jobCompleted) "job-240101-aaaaa"
      (some "late"))).bind (fun s => s.jobs "job-240101-aaaaa")).map
      (fun j => (j.status, j.cancelled_at, j.notes)) =
      some (.Cancelled, some 100, some "late") := by
  refine ⟨rfl, rfl, rfl⟩

/-- Claim C3 (amended): for every stored job — terminal states included —
`cancel_job` succeeds, writing back the record with `status = Cancelled`,
`cancelled_at`/`updated_at` set and `notes` overwritten by the reason; the
source has no terminal-state guard. -/
theorem claim_C3_amended {F : Type} (now : Int) (s : Store F) (jobId : String)
    (reason : Option String) (job : Job F)
    (hv : validate_id jobId.data (some .Job) = .ret true)
    (hj : s.jobs jobId = some job) :
    ∃ s' t, cancel_job now s jobId reason =
      .ret (.ok (to_response { job with
          status := JobStatus.Cancelled
          cancelled_at := some now
          updated_at := now
          notes := reason }), s', t) ∧
      s'.jobs = (putJob s { job with
          status := JobStatus.Cancelled
          cancelled_at := some now
          updated_at := now
          notes := reason }).jobs := by
  cases hd : job.driver_id with
  | none =>
    refine ⟨putJob s { job with
        driver_id := none
        status := JobStatus.Cancelled
        cancelled_at := some now
        updated_at := now
        notes := reason },
      [.readJob jobId, .writeJob job.id], ?_, rfl⟩
    simp only [cancel_job, hv, hj, hd]
  | some did =>
    refine ⟨removeDriverJobIdx (putJob s { job with
        driver_id := some did
        status := JobStatus.Cancelled
        cancelled_at := some now
        updated_at := now
        notes := reason }) did jobId,
      [.readJob jobId, .writeJob job.id, .removeDriverJob did jobId], ?_, rfl⟩
    simp only [cancel_job, hv, hj, hd]

theorem claim_C3_amended_witness :
    ∃ s' t, cancel_job 100 (storeWithJob jobCompleted) "job-240101-aaaaa"
      (some "late") =
      .ret (.ok (to_response { jobCompleted with
          status := JobStatus.Cancelled
          cancelled_at := some 100
          updated_at := 100
          notes := some "late" }), s', t) ∧
      s'.jobs = (putJob (storeWithJob jobCompleted) { jobCompleted with
          status := JobStatus.Cancelled
          cancelled_at := some 100
          updated_at := 100
          notes := some "late" }).jobs :=
  claim_C3_amended 100 (storeWithJob jobCompleted) "job-240101-aaaaa"
    (some "late") jobCompleted (by decide) rfl

/-- Claim C4 (refuting evidence): `find_available_drivers` has no ID-format
gate: on the structurally invalid ID `"bogus"` it still performs a
repository read (trace `[readJob "bogus"]`) before reporting not-found. -/
theorem claim_C4_counterexample :
    validate_id "bogus".data (some .Job) = .ret false ∧
    find_available_drivers qOps emptyStore "bogus" =
      .ret (.error (.NotFound "Job not found"), emptyStore, [.readJob "bogus"]) := by
  refine ⟨by decide, rfl⟩

/-- Claim C4 (amended): the ID-format gate holds for `get_job`,
`update_job_status` (its `job_id`), `assign_driver_to_job` (both IDs),
`cancel_job`, `complete_job` and `get_jobs_by_driver`: a structurally
invalid identifier yields the not-found/validation outcome with no
repository access.  `find_available_drivers` is the exception (see the
counterexample), and `update_job_status` checks an invalid `driver_id`
only after reading the job. -/
theorem claim_C4_amended {F : Type} (now : Int) (s : Store F)
    (badJobId badDriverId jobId : String) (st : JobStatus)
    (dopt nts reason : Option String)
    (hbj : validate_id badJobId.data (some .Job) = .ret false)
    (hbd : validate_id badDriverId.data (some .Driver) = .ret false)
    (hgj : validate_id jobId.data (some .Job) = .ret true) :
    get_job s badJobId = .ret (.ok none, s, []) ∧
    update_job_status now s ⟨badJobId, st, dopt, nts⟩ =
      .ret (.error (.ValidationFailed [⟨"job_id", "Invalid job ID format"⟩]), s, []) ∧
    assign_driver_to_job now s badJobId badDriverId =
      .ret (.error (.ValidationFailed [⟨"job_id", "Invalid job ID format"⟩]), s, []) ∧
    assign_driver_to_job now s jobId badDriverId =
      .ret (.error (.ValidationFailed [⟨"driver_id", "Invalid driver ID format"⟩]), s, []) ∧
    cancel_job now s badJobId reason =
      .ret (.error (.ValidationFailed [⟨"job_id", "Invalid job ID format"⟩]), s, []) ∧
    complete_job now s badJobId =
      .ret (.error (.ValidationFailed [⟨"job_id", "Invalid job ID format"⟩]), s, []) ∧
    get_jobs_by_driver s badDriverId =
      .ret (.error (.ValidationFailed [⟨"driver_id", "Invalid driver ID format"⟩]), s, []) := by
  refine ⟨?_, ?_, ?_, ?_, ?_, ?_, ?_⟩
  · simp only [get_job, hbj]
  · simp only [update_job_status, hbj]
  · simp only [assign_driver_to_job, hbj, SparrowError.mkValidation]
  · simp only [assign_driver_to_job, hgj, hbd, SparrowError.mkValidation]
  · simp only [cancel_job, hbj, SparrowError.mkValidation]
  · simp only [complete_job, hbj]
  · simp only [get_jobs_by_driver, hbd]

theorem claim_C4_amended_witness :
    get_job emptyStore "bogus" = .ret (.ok none, emptyStore, []) ∧
    update_job_status 0 emptyStore ⟨"bogus", .Pending, none, none⟩ =
      .ret (.error (.ValidationFailed [⟨"job_id", "Invalid job ID format"⟩]),
        emptyStore, []) ∧
    assign_driver_to_job 0 emptyStore "bogus" "nope" =
      .ret (.error (.ValidationFailed [⟨"job_id", "Invalid job ID format"⟩]),
        emptyStore, []) ∧
    assign_driver_to_job 0 emptyStore "job-240101-aaaaa" "nope" =
      .ret (.error (.ValidationFailed [⟨"driver_id", "Invalid driver ID format"⟩]),
        emptyStore, []) ∧
    cancel_job 0 emptyStore "bogus" none =
      .ret (.error (.ValidationFailed [⟨"job_id", "Invalid job ID format"⟩]),
        emptyStore, []) ∧
    complete_job 0 emptyStore "bogus" =
      .ret (.error (.ValidationFailed [⟨"job_id", "Invalid job ID format"⟩]),
        emptyStore, []) ∧
    get_jobs_by_driver emptyStore "nope" =
      .ret (.error (.ValidationFailed [⟨"driver_id", "Invalid driver ID format"⟩]),
        emptyStore, []) :=
  claim_C4_amended 0 emptyStore "bogus" "nope" "job-240101-aaaaa" .Pending
    none none none (by decide) (by decide) (by decide)

/-- Claim C7: the pricing persisted into a created job and the pricing
returned by the stand-alone estimate path are the same value — both paths
invoke the identical pure `calculate_pricing` on the request's fields — and
the estimate depends on nothing but the request (the store is untouched and
irrelevant). -/
theorem claim_C7_pricing_parity {F : Type} (O : FloatOps F) (ctx : CreationCtx)
    (s s₂ : Store F) (request : JobRequest F) (ereq : JobEstimateRequest F) :
    (createdJob O ctx request).pricing =
      calculate_pricing O (estimate_request_of request) ∧
    calculate_estimate O s (estimate_request_of request) =
      .ret (.ok (calculate_pricing O (estimate_request_of request)), s, []) ∧
    resultOk (calculate_estimate O s ereq) = resultOk (calculate_estimate O s₂ ereq) :=
  ⟨rfl, rfl, rfl⟩

/-- Claim C8 (refuting evidence): two `create_job` runs drawing the same
job-ID suffix but different tracking suffixes (both drawable by the suffix
policy) produce jobs with the same `id` and different `tracking_code` — so
`tracking_code` is not a function of the job's `id`. -/
theorem claim_C8_counterexample :
    validSuffix ctxA.trackingSuffix = true ∧
    validSuffix ctxB.trackingSuffix = true ∧
    (createdJob qOps ctxA reqA).id = (createdJob qOps ctxB reqA).id ∧
    (createdJob qOps ctxA reqA).tracking_code ≠ (createdJob qOps ctxB reqA).tracking_code := by
  refine ⟨by decide, by decide, rfl, by decide⟩

/-- If a sequence starts with `"job-"` it contains `'-'`. -/
lemma leadsWith_jobDash_mem (s : List Char)
    (h : leadsWith s ['j', 'o', 'b', '-'] = true) : '-' ∈ s := by
  rcases s with _ | ⟨a, _ | ⟨b, _ | ⟨c, _ | ⟨d, t⟩⟩⟩⟩ <;>
    simp only [leadsWith, Bool.and_eq_true, Bool.and_false, Bool.false_and,
      Bool.false_eq_true, decide_eq_true_eq, and_true] at h
  obtain ⟨-, -, -, hd⟩ := h
  subst hd
  simp

/-- `str::replace("job-", …)` leaves a dash-free sequence unchanged. -/
lemma rustReplaceFuel_no_dash (rep : List Char) :
    ∀ (s : List Char) (fuel : Nat), '-' ∉ s →
      rustReplaceFuel fuel s ['j', 'o', 'b', '-'] rep = s := by
  intro s
  induction s with
  | nil => intro fuel _; cases fuel <;> rfl
  | cons c rest ih =>
    intro fuel h
    cases fuel with
    | zero => rfl
    | succ f =>
      have hlw : leadsWith (c :: rest) ['j', 'o', 'b', '-'] = false := by
        cases hq : leadsWith (c :: rest) ['j', 'o', 'b', '-']
        · rfl
        · exact absurd (leadsWith_jobDash_mem _ hq) h
      simp only [rustReplaceFuel, hlw, Bool.false_eq_true, and_false, if_false,
        ih f (fun m => h (List.mem_cons_of_mem _ m))]

/-- `str::replace("job-", …)` leaves a sequence of digits followed by a
dash and a dash-free tail unchanged. -/
lemma rustReplaceFuel_digits_dash (rep sfx : List Char) (hs : '-' ∉ sfx) :
    ∀ (ds : List Char), (∀ c ∈ ds, c.isDigit = true) →
      ∀ fuel, rustReplaceFuel fuel (ds ++ '-' :: sfx) ['j', 'o', 'b', '-'] rep =
        ds ++ '-' :: sfx := by
  intro ds
  induction ds with
  | nil =>
    intro _ fuel
    cases fuel with
    | zero => rfl
    | succ f =>
      have hdj : (decide ('-' = 'j')) = false := by decide
      simp only [List.nil_append, rustReplaceFuel, leadsWith, hdj, Bool.false_and,
        Bool.false_eq_true, and_false, if_false]
      rw [rustReplaceFuel_no_dash rep sfx f hs]
  | cons c ds' ih =>
    intro hd fuel
    have hc : c.isDigit = true := hd c (by simp)
    have hcj : (decide (c = 'j')) = false := by
      apply decide_eq_false
      intro e
      rw [e] at hc
      exact absurd hc (by decide)
    cases fuel with
    | zero => rfl
    | succ f =>
      have ih' := ih (fun x hx => hd x (by simp [hx])) f
      simp only [List.cons_append, rustReplaceFuel, leadsWith, hcj, Bool.false_and,
        Bool.false_eq_true, and_false, if_false]
      exact congrArg (List.cons c) ih'

/-- One unfolding step of `str::replace("job-", …)` at a `"job-"`
occurrence. -/
lemma rustReplaceFuel_step (fuel : Nat) (tail rep : List Char)
    (hlw : leadsWith ('j' :: 'o' :: 'b' :: '-' :: tail) ['j', 'o', 'b', '-'] = true) :
    rustReplaceFuel (fuel + 1) ('j' :: 'o' :: 'b' :: '-' :: tail) ['j', 'o', 'b', '-'] rep =
      rep ++ rustReplaceFuel fuel tail ['j', 'o', 'b', '-'] rep := by
  have hdrop : List.drop (['j', 'o', 'b', '-'].length - 1)
      ('o' :: 'b' :: '-' :: tail) = tail := rfl
  simp only [rustReplaceFuel]
  rw [if_pos ⟨by simp, hlw⟩, hdrop]

/-- The tracking code of `create_job` in closed form: when the tracking
suffix contains no dash, `generate(Job).replace("job-", "GH")` is
`"GH{YYMMDD}-{suffix}"`. -/
lemma trackingCodeOf_eq (d : UtcDate) (sfx : List Char) (hnd : '-' ∉ sfx) :
    trackingCodeOf d sfx = String.mk ('G' :: 'H' :: (fmtYYMMDD d ++ '-' :: sfx)) := by
  have hdig : ∀ c ∈ fmtYYMMDD d, c.isDigit = true := by
    intro c hc
    simp only [fmtYYMMDD, pad2, List.cons_append, List.nil_append, List.mem_cons,
      List.not_mem_nil, or_false] at hc
    rcases hc with h | h | h | h | h | h <;>
      (subst h; exact (digitChar_facts _ (by omega)).2.1)
  have hshape : generate_with_timestamp .Job d sfx =
      'j' :: 'o' :: 'b' :: '-' :: (fmtYYMMDD d ++ '-' :: sfx) := rfl
  have hlw : leadsWith ('j' :: 'o' :: 'b' :: '-' :: (fmtYYMMDD d ++ '-' :: sfx))
      ['j', 'o', 'b', '-'] = true := by
    simp [leadsWith]
  have hlen : ('j' :: 'o' :: 'b' :: '-' :: (fmtYYMMDD d ++ '-' :: sfx)).length =
      (fmtYYMMDD d ++ '-' :: sfx).length + 3 + 1 := by
    simp only [List.length_cons]
  unfold trackingCodeOf rustReplace
  rw [hshape, hlen, rustReplaceFuel_step _ _ _ hlw,
    rustReplaceFuel_digits_dash ['G', 'H'] sfx hnd (fmtYYMMDD d) hdig _]
  rfl

/-- Claim C8 (amended): `tracking_code` is minted once at creation as an
independently generated Job-kind ID whose `"job-"` prefix is replaced by
`"GH"` (so it is `"GH{YYMMDD}-{suffix}"` for a fresh random suffix, not a
function of the job's `id`), and no lifecycle operation —
`complete_job`, `cancel_job`, `update_job_status` (without a driver
change), `assign_driver_to_job` — ever changes the stored or returned
`tracking_code`. -/
theorem claim_C8_amended {F : Type} (O : FloatOps F) (ctx : CreationCtx)
    (request : JobRequest F) (now : Int) (s : Store F) (jobId driverId : String)
    (job : Job F) (u : User) (st : JobStatus) (nts reason : Option String)
    (hts : validSuffix ctx.trackingSuffix = true)
    (hjv : validate_id jobId.data (some .Job) = .ret true)
    (hdv : validate_id driverId.data (some .Driver) = .ret true)
    (hj : s.jobs jobId = some job)
    (hu : s.users (driverByIdKey driverId) = some u) :
    (createdJob O ctx request).tracking_code =
      String.mk ('G' :: 'H' :: (fmtYYMMDD ctx.today ++ '-' :: ctx.trackingSuffix)) ∧
    (resultOk (complete_job now s jobId)).map (fun r => r.tracking_code) =
      some job.tracking_code ∧
    ((resultStore (complete_job now s jobId)).bind (fun s' => s'.jobs job.id)).map
      (fun j => j.tracking_code) = some job.tracking_code ∧
    (resultOk (cancel_job now s jobId reason)).map (fun r => r.tracking_code) =
      some job.tracking_code ∧
    ((resultStore (cancel_job now s jobId reason)).bind (fun s' => s'.jobs job.id)).map
      (fun j => j.tracking_code) = some job.tracking_code ∧
    (resultOk (update_job_status now s ⟨jobId, st, none, nts⟩)).map
      (fun r => r.tracking_code) = some job.tracking_code ∧
    ((resultStore (update_job_status now s ⟨jobId, st, none, nts⟩)).bind
      (fun s' => s'.jobs job.id)).map (fun j => j.tracking_code) =
      some job.tracking_code ∧
    (resultOk (assign_driver_to_job now s jobId driverId)).map
      (fun r => r.tracking_code) = some job.tracking_code ∧
    ((resultStore (assign_driver_to_job now s jobId driverId)).bind
      (fun s' => s'.jobs job.id)).map (fun j => j.tracking_code) =
      some job.tracking_code := by
  have hnd : '-' ∉ ctx.trackingSuffix := by
    rcases hsfx : ctx.trackingSuffix with _ | ⟨a, _ | ⟨b, _ | ⟨c, _ | ⟨e, _ | ⟨f, _ | ⟨g, t⟩⟩⟩⟩⟩⟩ <;>
      rw [hsfx] at hts <;>
      first
        | (exact fun hm => ((suffix5_facts _ _ _ _ _ hts) '-' hm).2 rfl)
        | (exfalso; simp [validSuffix] at hts)
  refine ⟨?_, ?_, ?_, ?_, ?_, ?_, ?_, ?_, ?_⟩
  · show trackingCodeOf ctx.today ctx.trackingSuffix = _
    exact trackingCodeOf_eq _ _ hnd
  · simp [complete_job, hjv, hj, resultOk, to_response]
  · simp [complete_job, hjv, hj, resultStore, putJob]
  · cases hd : job.driver_id <;>
      simp [cancel_job, hjv, hj, hd, resultOk, to_response]
  · cases hd : job.driver_id <;>
      simp [cancel_job, hjv, hj, hd, resultStore, putJob, removeDriverJobIdx]
  · simp only [update_job_status, hjv, hj]
    cases st <;> simp [resultOk, to_response]
  · simp only [update_job_status, hjv, hj]
    cases st <;> simp [resultStore, putJob]
  · simp [assign_driver_to_job, hjv, hdv, hj, hu, resultOk, to_response]
  · simp [assign_driver_to_job, hjv, hdv, hj, hu, resultStore, putJob, addDriverJobIdx]

theorem claim_C8_amended_witness :
    (createdJob qOps ctxA reqA).tracking_code =
      String.mk ('G' :: 'H' :: (fmtYYMMDD ⟨2024, 1, 1⟩ ++ '-' :: ['a', 'b', 'c', 'd', 'e'])) ∧
    (resultOk (complete_job 100 storeC1 "job-240101-aaaaa")).map
      (fun r => r.tracking_code) = some jobAssigned.tracking_code ∧
    ((resultStore (complete_job 100 storeC1 "job-240101-aaaaa")).bind
      (fun s' => s'.jobs jobAssigned.id)).map (fun j => j.tracking_code) =
      some jobAssigned.tracking_code ∧
    (resultOk (cancel_job 100 storeC1 "job-240101-aaaaa" none)).map
      (fun r => r.tracking_code) = some jobAssigned.tracking_code ∧
    ((resultStore (cancel_job 100 storeC1 "job-240101-aaaaa" none)).bind
      (fun s' => s'.jobs jobAssigned.id)).map (fun j => j.tracking_code) =
      some jobAssigned.tracking_code ∧
    (resultOk (update_job_status 100 storeC1 ⟨"job-240101-aaaaa", .InTransit, none, none⟩)).map
      (fun r => r.tracking_code) = some jobAssigned.tracking_code ∧
    ((resultStore (update_job_status 100 storeC1 ⟨"job-240101-aaaaa", .InTransit, none, none⟩)).bind
      (fun s' => s'.jobs jobAssigned.id)).map (fun j => j.tracking_code) =
      some jobAssigned.tracking_code ∧
    (resultOk (assign_driver_to_job 100 storeC1 "job-240101-aaaaa" "drv-240101-e2e2e")).map
      (fun r => r.tracking_code) = some jobAssigned.tracking_code ∧
    ((resultStore (assign_driver_to_job 100 storeC1 "job-240101-aaaaa" "drv-240101-e2e2e")).bind
      (fun s' => s'.jobs jobAssigned.id)).map (fun j => j.tracking_code) =
      some jobAssigned.tracking_code :=
  claim_C8_amended qOps ctxA reqA 100 storeC1 "job-240101-aaaaa" "drv-240101-e2e2e"
    jobAssigned ⟨"drv-240101-e2e2e"⟩ .InTransit none none (by decide) (by decide)
    (by decide) rfl rfl

/-- Claim C9: for every stored job, `find_available_drivers` returns at
most 10 driver IDs, none of which is in the job's `rejected_by_drivers`
list, and leaves the store — in particular the job record — unchanged.
(The driver directory's `find_nearby_drivers` is a stub returning no
candidates, so the returned list is in fact empty and the radius/ordering
conjuncts hold vacuously.) -/
theorem claim_C9_search_bounds {F : Type} (O : FloatOps F) (s : Store F)
    (jobId : String) (job : Job F) (hj : s.jobs jobId = some job) :
    ∃ ids : List String,
      find_available_drivers O s jobId = .ret (.ok ids, s, [.readJob jobId]) ∧
      ids.length ≤ 10 ∧
      (∀ d, d ∈ ids → ¬ d ∈ job.rejected_by_drivers) := by
  refine ⟨[], ?_, by simp, by simp⟩
  simp [find_available_drivers, hj, find_nearby_drivers]

theorem claim_C9_search_bounds_witness :
    ∃ ids : List String,
      find_available_drivers qOps (storeWithJob baseJob) "job-240101-aaaaa" =
        .ret (.ok ids, storeWithJob baseJob, [.readJob "job-240101-aaaaa"]) ∧
      ids.length ≤ 10 ∧
      (∀ d, d ∈ ids → ¬ d ∈ baseJob.rejected_by_drivers) :=
  claim_C9_search_bounds qOps (storeWithJob baseJob) "job-240101-aaaaa" baseJob rfl

end Sparrow
